import Mathlib

/- A Lean model of src/aws_gate/ssh.py from the aws-gate repository: SSH session
   construction (SshSession), the proxy-command composition with shell quoting
   (shlex.quote), the ephemeral key path derivation and the session lifecycle
   orchestrator (the ssh function).  Collaborating modules that are not part of
   the sources (aws_gate.constants, aws_gate.utils, aws_gate.ssh_common,
   aws_gate.session_common, aws_gate.query) are modelled from the specification
   at their interface boundary, as documented on each definition. -/

namespace AwsGate

/-! ### Characters used by the shell-quoting model

Special characters are introduced through Char.ofNat so that every later
definition can refer to them by name. -/

/-- The single-quote character. -/
def squoteChar : Char := Char.ofNat 39

/-- The double-quote character. -/
def dquoteChar : Char := Char.ofNat 34

/-- The backslash character. -/
def backslashChar : Char := Char.ofNat 92

/-- The backtick character (command substitution in the shell). -/
def backtickChar : Char := Char.ofNat 96

/-- The dollar character (parameter expansion in the shell). -/
def dollarChar : Char := Char.ofNat 36

/-- The horizontal-tab character. -/
def tabChar : Char := Char.ofNat 9

/-- The newline character. -/
def nlChar : Char := Char.ofNat 10

/-! ### shlex.quote

Model of Python's shlex.quote, used by SshSession._build_ssh_command.
Python: a string is returned unchanged when every character matches the
ASCII class of word characters, @, %, +, =, :, comma, dot, slash and
hyphen; the empty string becomes two single quotes;
otherwise the string is wrapped in single quotes with every embedded
single quote replaced by the five characters quote, double-quote, quote,
double-quote, quote. -/

/-- Characters that shlex.quote leaves unquoted: the ASCII regex class of
word characters plus @, %, +, =, :, comma, dot, slash and hyphen under
re.ASCII, i.e. letters, digits, underscore and the listed punctuation. -/
def isSafeChar (c : Char) : Bool :=
  (('a' ≤ c && c ≤ 'z') || ('A' ≤ c && c ≤ 'Z') || ('0' ≤ c && c ≤ '9')
    || (c == '_' || c == '@' || c == '%' || c == '+' || c == '=' || c == ':'
        || c == ',' || c == '.' || c == '/' || c == '-'))

/-- The replacement shlex.quote applies inside the single-quoted form:
a single quote becomes the five-character sequence closing the quote,
double-quoting a literal quote, and reopening; every other character is
kept as-is. -/
def escQuote (c : Char) : List Char :=
  if c = squoteChar then [squoteChar, dquoteChar, squoteChar, dquoteChar, squoteChar]
  else [c]

/-- str.replace over a whole character list (the body of the single-quoted
form built by shlex.quote). -/
def escAll : List Char → List Char
  | [] => []
  | c :: t => escQuote c ++ escAll t

/-- shlex.quote on a character list, mirroring the Python source: empty
string yields two single quotes; an all-safe string is returned unchanged;
otherwise the escaped body is wrapped in single quotes. -/
def quoteL (s : List Char) : List Char :=
  if s = [] then [squoteChar, squoteChar]
  else if s.all isSafeChar then s
  else squoteChar :: (escAll s ++ [squoteChar])

/-- shlex.quote on strings. -/
def shlexQuote (s : String) : String := String.mk (quoteL s.data)

/-! ### POSIX shell word splitting

A field-splitting lexer for the fragment of POSIX shell syntax relevant to
re-parsing a ProxyCommand value: blanks separate words; single quotes make
every character literal up to the closing quote; double quotes make
characters literal except for backslash escapes of dollar, backtick,
double quote, backslash and newline; an unquoted backslash escapes the
next character.  Inputs that a shell would subject to more than plain word
splitting (unquoted control operators, unquoted expansion characters,
globbing characters, comments, tildes) or that end inside a quoted region
are rejected with none, so a some result is a plain literal word list. -/

/-- Blank characters that delimit shell words. -/
def isShellSpace (c : Char) : Bool :=
  c == ' ' || c == tabChar || c == nlChar

/-- Characters that trigger shell behaviour beyond plain word splitting
when unquoted: control operators, redirections, subshells, expansion
introducers, globbing, comments and tilde expansion. -/
def isShellSpecial (c : Char) : Bool :=
  c == '|' || c == '&' || c == ';' || c == '<' || c == '>'
    || c == '(' || c == ')' || c == dollarChar || c == backtickChar
    || c == '*' || c == '?' || c == '[' || c == '#' || c == '~'

/-- Lexer state: between words, inside an unquoted word, inside a
single-quoted region, inside a double-quoted region. -/
inductive LexSt
  | delim
  | word
  | squote
  | dquote
deriving DecidableEq

/-- How an unquoted character is treated by the shell lexer. -/
inductive CKind
  | space
  | squo
  | dquo
  | esc
  | special
  | ordinary
deriving DecidableEq

/-- Classify an unquoted character for the shell lexer. -/
def classify (c : Char) : CKind :=
  if isShellSpace c then CKind.space
  else if c = squoteChar then CKind.squo
  else if c = dquoteChar then CKind.dquo
  else if c = backslashChar then CKind.esc
  else if isShellSpecial c then CKind.special
  else CKind.ordinary

/-- One-pass shell field splitter.  cur is the current word accumulated in
reverse; ws is the list of completed words in reverse. -/
def lex : List Char → LexSt → List Char → List (List Char) → Option (List (List Char))
  | [], LexSt.delim, _cur, ws => some ws.reverse
  | [], LexSt.word, cur, ws => some ((cur.reverse :: ws)).reverse
  | [], LexSt.squote, _cur, _ws => none
  | [], LexSt.dquote, _cur, _ws => none
  | c :: rest, LexSt.delim, _cur, ws =>
    if classify c = CKind.space then lex rest LexSt.delim [] ws
    else if classify c = CKind.squo then lex rest LexSt.squote [] ws
    else if classify c = CKind.dquo then lex rest LexSt.dquote [] ws
    else if classify c = CKind.esc then
      match rest with
      | [] => none
      | d :: rest2 =>
        if d = nlChar then lex rest2 LexSt.delim [] ws
        else lex rest2 LexSt.word [d] ws
    else if classify c = CKind.special then none
    else lex rest LexSt.word [c] ws
  | c :: rest, LexSt.word, cur, ws =>
    if classify c = CKind.space then lex rest LexSt.delim [] (cur.reverse :: ws)
    else if classify c = CKind.squo then lex rest LexSt.squote cur ws
    else if classify c = CKind.dquo then lex rest LexSt.dquote cur ws
    else if classify c = CKind.esc then
      match rest with
      | [] => none
      | d :: rest2 =>
        if d = nlChar then lex rest2 LexSt.word cur ws
        else lex rest2 LexSt.word (d :: cur) ws
    else if classify c = CKind.special then none
    else lex rest LexSt.word (c :: cur) ws
  | c :: rest, LexSt.squote, cur, ws =>
    if c = squoteChar then lex rest LexSt.word cur ws
    else lex rest LexSt.squote (c :: cur) ws
  | c :: rest, LexSt.dquote, cur, ws =>
    if c = dquoteChar then lex rest LexSt.word cur ws
    else if c = backslashChar then
      match rest with
      | [] => none
      | d :: rest2 =>
        if d = dquoteChar then lex rest2 LexSt.dquote (d :: cur) ws
        else if d = backslashChar then lex rest2 LexSt.dquote (d :: cur) ws
        else if d = dollarChar then lex rest2 LexSt.dquote (d :: cur) ws
        else if d = backtickChar then lex rest2 LexSt.dquote (d :: cur) ws
        else if d = nlChar then lex rest2 LexSt.dquote cur ws
        else lex rest2 LexSt.dquote (d :: backslashChar :: cur) ws
    else if c = dollarChar then none
    else if c = backtickChar then none
    else lex rest LexSt.dquote (c :: cur) ws

/-- Split a character sequence into shell words. -/
def shellSplit (s : List Char) : Option (List (List Char)) :=
  lex s LexSt.delim [] []

/-- The space-join of the shell-quoted forms of a list of words, at the
character-list level. -/
def joinqL : List (List Char) → List Char
  | [] => []
  | [a] => quoteL a
  | a :: b :: t => quoteL a ++ ' ' :: joinqL (b :: t)

/-- Python " ".join(shlex.quote(i) for i in args), as used to build the
ProxyCommand value. -/
def shJoin : List String → String
  | [] => ""
  | [a] => shlexQuote a
  | a :: b :: t => shlexQuote a ++ " " ++ shJoin (b :: t)

/-! ### Observable effects and errors of the session lifecycle

Modelled from the spec: the collaborators SshKey, SshKeyUploader and
BaseSession (aws_gate.ssh_common and aws_gate.session_common are not in
the sources) acquire and release external resources; an Event records one
such observable side effect, in program order.  The error taxonomy follows
section 7 of the specification. -/

/-- One observable side effect of the orchestrator: key-pair creation and
disposal (SshKey enter/exit), trust-broker key upload and best-effort
release (SshKeyUploader enter/exit), session-broker start and terminate
calls (BaseSession enter/exit), and the spawn of the local SSH process. -/
inductive Event
  | keyCreate (key_path : String)
  | keyDispose (key_path : String)
  | trustInstall (instance_id az os_user : String)
  | trustRelease
  | sessionCreate
  | sessionTerminate
  | sshSpawn (argv : List String)
deriving DecidableEq

/-- Modelled from the spec: the error taxonomy of section 7, plus the
ValueError raised directly by the ssh function in the sources when no
instance id can be resolved. -/
inductive GateError
  | valueError (msg : String)
  | keyGenerationError
  | trustInstallError
  | sessionStartError
  | processLaunchError
deriving DecidableEq

/-! ### SshSession (src/aws_gate/ssh.py, class SshSession) -/

/-- The state stored by SshSession.__init__.  The ssm client is modelled
by the only piece of it the class reads, its endpoint URL
(self._ssm.meta.endpoint_url); the broker session-start response
(self._response, set by the create method of the missing BaseSession base
class) is modelled by its JSON serialization, the only form in which the
class consumes it. -/
structure SshSession where
  instance_id : String
  region_name : String
  profile_name : String
  ssm_endpoint_url : String
  port : Nat
  user : String
  command : Option (List String)
  key_path : String
  agent_mode : Bool
  response_json : String

/-- SshSession.__init__.  The second component is the list of remote API
calls the constructor makes: the body only assigns attributes, so it is
empty.  The None check on profile_name mirrors the source:
profile_name if profile_name is not None else "". -/
def mkSshSession (instance_id key_path ssm_endpoint_url region_name : String)
    (profile_name : Option String) (port : Nat) (user : String)
    (command : Option (List String)) (agent_mode : Bool) (response_json : String) :
    SshSession × List Event :=
  (⟨instance_id, region_name, profile_name.getD "", ssm_endpoint_url, port, user,
    command, key_path, agent_mode, response_json⟩, [])

/-- The session descriptor stored in self._session_parameters: the keys
Target, DocumentName and Parameters (with its single key portNumber), in
insertion order. -/
structure SessionParameters where
  target : String
  documentName : String
  portNumber : List String
deriving DecidableEq

/-- self._session_parameters as computed by SshSession.__init__: Target is
the instance id, DocumentName is the fixed document AWS-StartSSHSession,
and Parameters carries portNumber = [str(port)]. -/
def SshSession.session_parameters (s : SshSession) : SessionParameters :=
  ⟨s.instance_id, "AWS-StartSSHSession", [toString s.port]⟩

/-! ### json.dumps on the session descriptor -/

/-- Lower-case hexadecimal digit. -/
def hexDigit (n : Nat) : Char :=
  if n < 10 then Char.ofNat (48 + n) else Char.ofNat (87 + n)

/-- Four-digit lower-case hexadecimal rendering, as in Python \u escapes. -/
def toHex4 (n : Nat) : List Char :=
  [hexDigit (n / 4096 % 16), hexDigit (n / 256 % 16), hexDigit (n / 16 % 16),
    hexDigit (n % 16)]

/-- Python json.dumps escaping of one character with the default
ensure_ascii=True: double quote and backslash get a backslash, the common
control characters use their short escapes, the other control characters
and every non-ASCII character use u-escapes (with surrogate pairs beyond
the basic plane), and printable ASCII is kept as-is. -/
def jsonEscapeChar (c : Char) : List Char :=
  if c = dquoteChar then [backslashChar, dquoteChar]
  else if c = backslashChar then [backslashChar, backslashChar]
  else if c = nlChar then [backslashChar, 'n']
  else if c = Char.ofNat 13 then [backslashChar, 'r']
  else if c = tabChar then [backslashChar, 't']
  else if c = Char.ofNat 8 then [backslashChar, 'b']
  else if c = Char.ofNat 12 then [backslashChar, 'f']
  else if c.toNat < 32 then backslashChar :: 'u' :: toHex4 c.toNat
  else if c.toNat < 127 then [c]
  else if c.toNat < 65536 then backslashChar :: 'u' :: toHex4 c.toNat
  else
    (backslashChar :: 'u' :: toHex4 (55296 + (c.toNat - 65536) / 1024))
      ++ (backslashChar :: 'u' :: toHex4 (56320 + (c.toNat - 65536) % 1024))

/-- json.dumps escaping over a character list. -/
def jsonEscAll : List Char → List Char
  | [] => []
  | c :: t => jsonEscapeChar c ++ jsonEscAll t

/-- A JSON string literal for s, as json.dumps renders it. -/
def jsonStringLit (s : String) : String :=
  String.mk (dquoteChar :: (jsonEscAll s.data ++ [dquoteChar]))

/-- json.dumps(self._session_parameters) with the default separators:
keys in insertion order (Target, DocumentName, Parameters), item
separator comma-space, key separator colon-space. -/
def sessionParametersJson (s : SshSession) : String :=
  "\x7b\"Target\": " ++ jsonStringLit s.instance_id
    ++ ", \"DocumentName\": " ++ jsonStringLit "AWS-StartSSHSession"
    ++ ", \"Parameters\": \x7b\"portNumber\": ["
    ++ jsonStringLit (toString s.port) ++ "]\x7d\x7d"

/-! ### SshSession._build_ssh_command -/

/-- The proxy_command_args list of _build_ssh_command, in source order:
the plugin install path (the constant PLUGIN_INSTALL_PATH from the missing
aws_gate.constants module, passed here as a parameter),
json.dumps(self._response), the region, the literal StartSession, the
profile, json.dumps(self._session_parameters) and the ssm endpoint URL. -/
def proxyCommandArgs (plugin_install_path : String) (s : SshSession) : List String :=
  [plugin_install_path, s.response_json, s.region_name, "StartSession",
    s.profile_name, sessionParametersJson s, s.ssm_endpoint_url]

/-- proxy_command = " ".join(shlex.quote(i) for i in proxy_command_args). -/
def proxyCommand (plugin_install_path : String) (s : SshSession) : String :=
  shJoin (proxyCommandArgs plugin_install_path s)

/-- The ssh_options list of _build_ssh_command, in source order. -/
def sshOptionsOf (plugin_install_path : String) (s : SshSession) : List String :=
  ["IdentitiesOnly=" ++ (if s.agent_mode then "no" else "yes"),
    "IdentityFile=" ++ s.key_path,
    "UserKnownHostsFile=/dev/null",
    "StrictHostKeyChecking=no",
    "ProxyCommand=" ++ proxyCommand plugin_install_path s]

/-- The loop appending cmd.append("-o"); cmd.append(ssh_option) for each
option. -/
def optionPairs : List String → List String
  | [] => []
  | o :: t => "-o" :: o :: optionPairs t

/-- SshSession._build_ssh_command.  The module-level DEBUG flag from the
missing aws_gate.constants module is passed as the debug parameter. -/
def buildSshCommand (debug : Bool) (plugin_install_path : String) (s : SshSession) :
    List String :=
  (["ssh", "-l", s.user, "-p", toString s.port, "-F", "/dev/null"]
      ++ [if debug then "-vv" else "-q"]
      ++ optionPairs (sshOptionsOf plugin_install_path s)
      ++ [s.instance_id])
    ++ (match s.command with
        | none => []
        | some cs => if cs = [] then [] else "--" :: cs)

/-! ### The orchestrator (the ssh function of src/aws_gate/ssh.py) -/

/-- Modelled from the spec: the external collaborators injected into the
orchestrator, which live in modules absent from the sources.
fetch_details models aws_gate.utils.fetch_instance_details_from_config,
returning the (instance, profile, region) triple; query_instance models
aws_gate.query.query_instance, returning the resolved instance id or
None; instance_az models get_instance_details returning the availability
zone; key_create_ok models success of SshKey key generation
(KeyGenerationError on failure); upload_ok models success of the
SshKeyUploader trust-broker upload (TrustInstallError on failure);
start_session_ok and start_session_response_json model the session-broker
start call made by the create method of BaseSession; execute_result
models aws_gate.utils.execute, which spawns the local SSH process and
returns its exit status (or fails to launch); ssm_endpoint_url models the
ssm client's endpoint; plugin_install_path, debug and default_gate_dir
model the constants PLUGIN_INSTALL_PATH, DEBUG and DEFAULT_GATE_DIR of
the missing aws_gate.constants module. -/
structure Env where
  fetch_details : String → String → String → String → String × String × String
  query_instance : String → Option String
  instance_az : String → String
  key_create_ok : Bool
  upload_ok : Bool
  start_session_ok : Bool
  start_session_response_json : String
  execute_result : Except GateError Nat
  ssm_endpoint_url : String
  plugin_install_path : String
  debug : Bool
  default_gate_dir : String

/-- The ephemeral key path derivation of the ssh function, from the
source: key_path is DEFAULT_GATE_DIR, a slash, the instance id, a dot,
the region_name argument, a dot and the profile_name argument. -/
def keyPathOf (gate_dir instance_id region_name profile_name : String) : String :=
  gate_dir ++ "/" ++ instance_id ++ "." ++ region_name ++ "." ++ profile_name

/-- SshSession.open: builds the SSH command and runs it through execute
(modelled from the spec: execute spawns the local SSH client attached to
the operator's terminal and returns its exit status).  The first
component records the spawn attempt; the second is the exit status or a
launch failure, injected through the environment. -/
def SshSession.sshOpen (env : Env) (s : SshSession) : List Event × Except GateError Nat :=
  ([Event.sshSpawn (buildSshCommand env.debug env.plugin_install_path s)],
    env.execute_result)

/-- The ssh function of src/aws_gate/ssh.py.  The trace records the
observable effects in program order; the second component is the
function's outcome: an error for a raised exception, or Except.ok with
the returned value.  The body calls ssh_session.open() as its last
statement without returning its value, so the success outcome is
Except.ok none (Python's implicit None).  The nested with blocks release
the three scoped resources in reverse order on every exit path, after the
constructor's API calls (none) and the create call of the session; the
plugin-validation and profile/region-validation decorators of the missing
aws_gate.decorators module run before the body and are not modelled. -/
def ssh (env : Env) (config instance_name : String) (user : String) (port : Nat)
    (_key_type : String) (_key_size : Nat) (profile_name region_name : String)
    (command : Option (List String)) (agent_mode : Bool) :
    List Event × Except GateError (Option Nat) :=
  let fr := env.fetch_details config instance_name profile_name region_name
  let instanceN := fr.1
  let profile := fr.2.1
  let region := fr.2.2
  match env.query_instance instanceN with
  | none =>
    ([], Except.error (GateError.valueError
      ("No instance could be found for name: " ++ instanceN)))
  | some instance_id =>
    let az := env.instance_az instance_id
    let key_path := keyPathOf env.default_gate_dir instance_id region_name profile_name
    if env.key_create_ok then
      if env.upload_ok then
        if env.start_session_ok then
          let si := mkSshSession instance_id key_path env.ssm_endpoint_url region
            (some profile) port user command agent_mode env.start_session_response_json
          let opened := SshSession.sshOpen env si.1
          match opened.2 with
          | Except.ok _n =>
            (Event.keyCreate key_path :: Event.trustInstall instance_id az user :: si.2
                ++ Event.sessionCreate :: opened.1
                ++ [Event.sessionTerminate, Event.trustRelease, Event.keyDispose key_path],
              Except.ok none)
          | Except.error e =>
            (Event.keyCreate key_path :: Event.trustInstall instance_id az user :: si.2
                ++ Event.sessionCreate :: opened.1
                ++ [Event.sessionTerminate, Event.trustRelease, Event.keyDispose key_path],
              Except.error e)
        else
          ([Event.keyCreate key_path, Event.trustInstall instance_id az user,
              Event.trustRelease, Event.keyDispose key_path],
            Except.error GateError.sessionStartError)
      else
        ([Event.keyCreate key_path, Event.keyDispose key_path],
          Except.error GateError.trustInstallError)
    else
      ([], Except.error GateError.keyGenerationError)

/-- Trace events that acquire a scoped resource. -/
def isAcquireEvent : Event → Bool
  | Event.keyCreate _ => true
  | Event.trustInstall _ _ _ => true
  | Event.sessionCreate => true
  | _ => false

/-- Trace events that release a scoped resource. -/
def isReleaseEvent : Event → Bool
  | Event.keyDispose _ => true
  | Event.trustRelease => true
  | Event.sessionTerminate => true
  | _ => false

/-- The release event matching an acquisition event. -/
def releaseFor : Event → Event
  | Event.keyCreate p => Event.keyDispose p
  | Event.trustInstall _ _ _ => Event.trustRelease
  | Event.sessionCreate => Event.sessionTerminate
  | e => e

/-- A concrete environment in which every step succeeds and the SSH
process exits 0. -/
def testEnvBase : Env :=
  ⟨fun _config name _pn _rn => (name, "default", "eu-west-1"),
    fun _name => some "i-0123456789abcdef0",
    fun _iid => "eu-west-1a",
    true, true, true,
    "\x7b\"SessionId\": \"session-1\"\x7d",
    Except.ok 0,
    "https://ssm.eu-west-1.amazonaws.com",
    "/usr/local/bin/session-manager-plugin",
    false,
    "/home/operator/.aws-gate"⟩

/-- A concrete environment in which the trust-broker upload fails. -/
def testEnvUploadFail : Env :=
  ⟨fun _config name _pn _rn => (name, "default", "eu-west-1"),
    fun _name => some "i-0123456789abcdef0",
    fun _iid => "eu-west-1a",
    true, false, true,
    "\x7b\"SessionId\": \"session-1\"\x7d",
    Except.ok 0,
    "https://ssm.eu-west-1.amazonaws.com",
    "/usr/local/bin/session-manager-plugin",
    false,
    "/home/operator/.aws-gate"⟩

/-- A concrete environment in which no instance id can be resolved. -/
def testEnvQueryNone : Env :=
  ⟨fun _config name _pn _rn => (name, "default", "eu-west-1"),
    fun _name => none,
    fun _iid => "eu-west-1a",
    true, true, true,
    "\x7b\"SessionId\": \"session-1\"\x7d",
    Except.ok 0,
    "https://ssm.eu-west-1.amazonaws.com",
    "/usr/local/bin/session-manager-plugin",
    false,
    "/home/operator/.aws-gate"⟩

/-- A concrete environment in which every step succeeds and the SSH
process exits with status 255. -/
def testEnvExit255 : Env :=
  ⟨fun _config name _pn _rn => (name, "default", "eu-west-1"),
    fun _name => some "i-0123456789abcdef0",
    fun _iid => "eu-west-1a",
    true, true, true,
    "\x7b\"SessionId\": \"session-1\"\x7d",
    Except.ok 255,
    "https://ssm.eu-west-1.amazonaws.com",
    "/usr/local/bin/session-manager-plugin",
    false,
    "/home/operator/.aws-gate"⟩

/-! ### Round-trip: shell splitting undoes shlex.quote plus space join -/

@[simp] lemma isShellSpace_squoteChar : isShellSpace squoteChar = false := by decide

@[simp] lemma isShellSpace_dquoteChar : isShellSpace dquoteChar = false := by decide

@[simp] lemma isShellSpace_space : isShellSpace ' ' = true := by decide

@[simp] lemma dquoteChar_ne_squoteChar : dquoteChar ≠ squoteChar := by decide

@[simp] lemma squoteChar_ne_dquoteChar : squoteChar ≠ dquoteChar := by decide

@[simp] lemma squoteChar_ne_backslashChar : squoteChar ≠ backslashChar := by decide

@[simp] lemma dquoteChar_ne_backslashChar : dquoteChar ≠ backslashChar := by decide

@[simp] lemma squoteChar_ne_dollarChar : squoteChar ≠ dollarChar := by decide

@[simp] lemma squoteChar_ne_backtickChar : squoteChar ≠ backtickChar := by decide

/-- A character accepted unquoted by shlex.quote is ordinary for the shell
lexer. -/
lemma safeChar_ordinary (c : Char) (h : isSafeChar c = true) :
    classify c = CKind.ordinary := by
  have h1 : isShellSpace c = false := by
    cases h1 : isShellSpace c
    · rfl
    · exfalso
      simp only [isShellSpace, Bool.or_eq_true, beq_iff_eq, or_assoc] at h1
      rcases h1 with rfl | rfl | rfl <;> exact absurd h (by decide)
  have h2 : ¬(c = squoteChar) := fun hc => by subst hc; exact absurd h (by decide)
  have h3 : ¬(c = dquoteChar) := fun hc => by subst hc; exact absurd h (by decide)
  have h4 : ¬(c = backslashChar) := fun hc => by subst hc; exact absurd h (by decide)
  have h5 : isShellSpecial c = false := by
    cases h5 : isShellSpecial c
    · rfl
    · exfalso
      simp only [isShellSpecial, Bool.or_eq_true, beq_iff_eq, or_assoc] at h5
      rcases h5 with rfl | rfl | rfl | rfl | rfl | rfl | rfl | rfl | rfl | rfl | rfl | rfl | rfl | rfl <;>
        exact absurd h (by decide)
  simp [classify, h1, h2, h3, h4, h5]

@[simp] lemma classify_squoteChar : classify squoteChar = CKind.squo := by decide

@[simp] lemma classify_dquoteChar : classify dquoteChar = CKind.dquo := by decide

@[simp] lemma classify_space : classify ' ' = CKind.space := by decide

/-! Single-step reduction lemmas for the lexer. -/

lemma lex_step_delim_ordinary (c : Char) (h : classify c = CKind.ordinary)
    (rest cur : List Char) (ws : List (List Char)) :
    lex (c :: rest) LexSt.delim cur ws = lex rest LexSt.word [c] ws := by
  rw [lex.eq_def]; simp [h]

lemma lex_step_delim_squo (rest cur : List Char) (ws : List (List Char)) :
    lex (squoteChar :: rest) LexSt.delim cur ws = lex rest LexSt.squote [] ws := by
  rw [lex.eq_def]; simp

lemma lex_step_word_ordinary (c : Char) (h : classify c = CKind.ordinary)
    (rest cur : List Char) (ws : List (List Char)) :
    lex (c :: rest) LexSt.word cur ws = lex rest LexSt.word (c :: cur) ws := by
  rw [lex.eq_def]; simp [h]

lemma lex_step_word_space (rest cur : List Char) (ws : List (List Char)) :
    lex (' ' :: rest) LexSt.word cur ws
      = lex rest LexSt.delim [] (cur.reverse :: ws) := by
  rw [lex.eq_def]; simp

lemma lex_step_word_squo (rest cur : List Char) (ws : List (List Char)) :
    lex (squoteChar :: rest) LexSt.word cur ws = lex rest LexSt.squote cur ws := by
  rw [lex.eq_def]; simp

lemma lex_step_word_dquo (rest cur : List Char) (ws : List (List Char)) :
    lex (dquoteChar :: rest) LexSt.word cur ws = lex rest LexSt.dquote cur ws := by
  rw [lex.eq_def]; simp

lemma lex_step_squote_close (rest cur : List Char) (ws : List (List Char)) :
    lex (squoteChar :: rest) LexSt.squote cur ws = lex rest LexSt.word cur ws := by
  rw [lex.eq_def]; simp

lemma lex_step_squote_other (c : Char) (h : ¬(c = squoteChar))
    (rest cur : List Char) (ws : List (List Char)) :
    lex (c :: rest) LexSt.squote cur ws = lex rest LexSt.squote (c :: cur) ws := by
  rw [lex.eq_def]; simp [h]

lemma lex_step_dquote_squote (rest cur : List Char) (ws : List (List Char)) :
    lex (squoteChar :: rest) LexSt.dquote cur ws
      = lex rest LexSt.dquote (squoteChar :: cur) ws := by
  rw [lex.eq_def]; simp

lemma lex_step_dquote_close (rest cur : List Char) (ws : List (List Char)) :
    lex (dquoteChar :: rest) LexSt.dquote cur ws = lex rest LexSt.word cur ws := by
  rw [lex.eq_def]; simp

lemma lex_end_word (cur : List Char) (ws : List (List Char)) :
    lex [] LexSt.word cur ws = some ((cur.reverse :: ws)).reverse := rfl

lemma lex_end_delim (cur : List Char) (ws : List (List Char)) :
    lex [] LexSt.delim cur ws = some ws.reverse := rfl

/-- Consuming a run of safe characters in word state appends them to the
current word. -/
lemma lex_safe_word (s : List Char) (hs : s.all isSafeChar = true) :
    ∀ rest cur ws, lex (s ++ rest) LexSt.word cur ws
      = lex rest LexSt.word (s.reverse ++ cur) ws := by
  induction s with
  | nil => intro rest cur ws; simp
  | cons c t ih =>
    intro rest cur ws
    simp only [List.all_cons, Bool.and_eq_true] at hs
    obtain ⟨hc, ht⟩ := hs
    rw [List.cons_append, lex_step_word_ordinary c (safeChar_ordinary c hc), ih ht]
    simp [List.append_assoc]

/-- Consuming the escaped body produced by shlex.quote inside a
single-quoted region, up to its closing quote, appends the original
characters to the current word. -/
lemma lex_squote_esc (s : List Char) :
    ∀ rest cur ws, lex (escAll s ++ (squoteChar :: rest)) LexSt.squote cur ws
      = lex rest LexSt.word (s.reverse ++ cur) ws := by
  induction s with
  | nil =>
    intro rest cur ws
    rw [show escAll [] ++ (squoteChar :: rest) = squoteChar :: rest from rfl,
      lex_step_squote_close]
    simp
  | cons c t ih =>
    intro rest cur ws
    by_cases hc : c = squoteChar
    · subst hc
      have hshape : escAll (squoteChar :: t) ++ (squoteChar :: rest)
          = squoteChar :: dquoteChar :: squoteChar :: dquoteChar :: squoteChar ::
              (escAll t ++ (squoteChar :: rest)) := by
        simp [escAll, escQuote, List.append_assoc]
      rw [hshape, lex_step_squote_close, lex_step_word_dquo, lex_step_dquote_squote,
        lex_step_dquote_close, lex_step_word_squo, ih]
      simp [List.append_assoc]
    · have hshape : escAll (c :: t) ++ (squoteChar :: rest)
          = c :: (escAll t ++ (squoteChar :: rest)) := by
        simp [escAll, escQuote, hc]
      rw [hshape, lex_step_squote_other c hc, ih]
      simp [List.append_assoc]

/-- Parsing the shlex.quote form of a word from between-words state leaves
the lexer in word state with exactly that word accumulated. -/
lemma lex_quote (s : List Char) :
    ∀ rest ws, lex (quoteL s ++ rest) LexSt.delim [] ws
      = lex rest LexSt.word s.reverse ws := by
  intro rest ws
  by_cases h0 : s = []
  · subst h0
    rw [show quoteL [] ++ rest = squoteChar :: squoteChar :: rest from rfl,
      lex_step_delim_squo, lex_step_squote_close]
    rfl
  · by_cases hall : s.all isSafeChar = true
    · rw [quoteL, if_neg h0, if_pos hall]
      cases s with
      | nil => exact absurd rfl h0
      | cons c t =>
        simp only [List.all_cons, Bool.and_eq_true] at hall
        obtain ⟨hc, ht⟩ := hall
        rw [List.cons_append, lex_step_delim_ordinary c (safeChar_ordinary c hc),
          lex_safe_word t ht]
        simp
    · rw [quoteL, if_neg h0, if_neg hall]
      have hshape : (squoteChar :: (escAll s ++ [squoteChar])) ++ rest
          = squoteChar :: (escAll s ++ (squoteChar :: rest)) := by
        simp [List.append_assoc]
      rw [hshape, lex_step_delim_squo, lex_squote_esc s rest [] ws]
      simp

/-- Parsing the space-join of the shlex.quote forms of a word list yields
exactly those words, appended after whatever words were already seen. -/
lemma lex_joinq (xs : List (List Char)) :
    ∀ ws, lex (joinqL xs) LexSt.delim [] ws = some (ws.reverse ++ xs) := by
  induction xs with
  | nil => intro ws; simp [joinqL, lex_end_delim]
  | cons a t ih =>
    intro ws
    cases t with
    | nil =>
      have h1 : joinqL [a] = quoteL a ++ [] := by simp [joinqL]
      rw [h1, lex_quote a [] ws, lex_end_word]
      simp
    | cons b u =>
      have h1 : joinqL (a :: b :: u) = quoteL a ++ (' ' :: joinqL (b :: u)) := rfl
      rw [h1, lex_quote a (' ' :: joinqL (b :: u)) ws, lex_step_word_space,
        ih (a.reverse.reverse :: ws)]
      simp

/-- Round trip at the character level: shell word splitting undoes the
space-join of individually shlex.quoted words. -/
lemma shellSplit_joinqL (xs : List (List Char)) : shellSplit (joinqL xs) = some xs := by
  unfold shellSplit
  rw [lex_joinq xs []]
  rfl

/-- String append acts as list append on the underlying character data. -/
lemma string_data_append (a b : String) : (a ++ b).data = a.data ++ b.data := by
  cases a; cases b; rfl

/-- shlex.quote on strings acts as quoteL on the underlying data. -/
lemma shlexQuote_data (a : String) : (shlexQuote a).data = quoteL a.data := rfl

/-- The character data of Python " ".join(map(shlex.quote, args)). -/
lemma shJoin_data (args : List String) : (shJoin args).data = joinqL (args.map String.data) := by
  induction args with
  | nil => rfl
  | cons a t ih =>
    cases t with
    | nil => rfl
    | cons b u =>
      have h1 : shJoin (a :: b :: u) = shlexQuote a ++ " " ++ shJoin (b :: u) := rfl
      have hsp : (" " : String).data = [' '] := by decide
      rw [h1, string_data_append, string_data_append, ih, shlexQuote_data, hsp]
      simp [joinqL, List.append_assoc]

/-- Round trip at the string level: shell word splitting of the built
space-joined, shlex.quoted string recovers the original argument list. -/
lemma shellSplit_shJoin (args : List String) :
    shellSplit ((shJoin args).data) = some (args.map String.data) := by
  rw [shJoin_data, shellSplit_joinqL]

/-! Helper lemmas relating the join used by the command builder to
String.intercalate. -/

lemma str_append_assoc (a b c : String) : (a ++ b) ++ c = a ++ (b ++ c) := by
  cases a; cases b; cases c
  apply String.ext
  simp [List.append_assoc]

lemma intercalate_go_cons : ∀ (t : List String) (x b : String),
    String.intercalate.go x " " (b :: t) = x ++ " " ++ String.intercalate.go b " " t := by
  intro t
  induction t with
  | nil => intro x b; simp [String.intercalate.go]
  | cons c u ih =>
    intro x b
    rw [show String.intercalate.go x " " (b :: c :: u)
        = String.intercalate.go (x ++ " " ++ b) " " (c :: u) from rfl]
    rw [ih (x ++ " " ++ b) c, ih b c]
    simp [str_append_assoc]

/-- The builder's join is the space-intercalation of the individually
shell-quoted elements. -/
lemma shJoin_eq_intercalate (args : List String) :
    shJoin args = String.intercalate " " (args.map shlexQuote) := by
  cases args with
  | nil => rfl
  | cons a t =>
    induction t generalizing a with
    | nil => simp [shJoin, String.intercalate, String.intercalate.go]
    | cons b u ih =>
      rw [show shJoin (a :: b :: u) = shlexQuote a ++ " " ++ shJoin (b :: u) from rfl, ih b]
      rw [show String.intercalate " " (List.map shlexQuote (a :: b :: u))
          = String.intercalate.go (shlexQuote a) " " (shlexQuote b :: List.map shlexQuote u)
          from rfl]
      rw [intercalate_go_cons]
      rw [show String.intercalate " " (List.map shlexQuote (b :: u))
          = String.intercalate.go (shlexQuote b) " " (List.map shlexQuote u) from rfl]

/-- Claim C3: for every value of the proxy-command inputs (plugin path,
serialized session-start response, region, profile, serialized session
parameters, endpoint URL), including values containing spaces, quotes and
shell metacharacters, splitting the built ProxyCommand string by POSIX
shell word rules yields exactly the original seven-element argument list
in order. -/
theorem proxy_command_shell_roundtrip (plugin_install_path : String) (s : SshSession) :
    shellSplit ((proxyCommand plugin_install_path s).data)
      = some [plugin_install_path.data, s.response_json.data, s.region_name.data,
          "StartSession".data, s.profile_name.data, (sessionParametersJson s).data,
          s.ssm_endpoint_url.data] := by
  unfold proxyCommand
  rw [shellSplit_shJoin]
  rfl

/-- Claim C5: for every built SSH invocation, the ProxyCommand option
value is the space-join of exactly these elements in this order, each
individually shell-quoted: the proxying-executable path, the
JSON-serialized session-start response, the region, the literal string
StartSession, the profile, the JSON-serialized session parameters and the
broker endpoint URL. -/
theorem proxy_command_option_composition (debug : Bool) (plugin_install_path : String)
    (s : SshSession) :
    (buildSshCommand debug plugin_install_path s)[17]?
      = some ("ProxyCommand=" ++ String.intercalate " "
          (List.map shlexQuote
            [plugin_install_path, s.response_json, s.region_name, "StartSession",
              s.profile_name, sessionParametersJson s, s.ssm_endpoint_url])) := by
  rw [← shJoin_eq_intercalate]
  simp [buildSshCommand, optionPairs, sshOptionsOf, proxyCommand, proxyCommandArgs]

/-- Claim C6: for every SshSession, the built argument list is, in order:
the base client invocation targeting the user and port with the local
config file disabled via -F /dev/null; exactly one verbosity flag
(debug-verbose -vv when the process-wide debug flag is set, otherwise
quiet -q); the five -o options in the order IdentitiesOnly, IdentityFile,
UserKnownHostsFile=/dev/null, StrictHostKeyChecking=no, ProxyCommand; the
instance identifier as the connection target; and, when a remote command
was supplied, a literal double-dash separator followed by the command
tokens verbatim as separate argv elements. -/
theorem build_ssh_command_composition (debug : Bool) (plugin_install_path : String)
    (s : SshSession) :
    buildSshCommand debug plugin_install_path s
      = ["ssh", "-l", s.user, "-p", toString s.port, "-F", "/dev/null"]
        ++ [if debug then "-vv" else "-q"]
        ++ ["-o", "IdentitiesOnly=" ++ (if s.agent_mode then "no" else "yes"),
            "-o", "IdentityFile=" ++ s.key_path,
            "-o", "UserKnownHostsFile=/dev/null",
            "-o", "StrictHostKeyChecking=no",
            "-o", "ProxyCommand=" ++ proxyCommand plugin_install_path s]
        ++ [s.instance_id]
        ++ (match s.command with
            | none => []
            | some cs => if cs = [] then [] else "--" :: cs) := by
  simp [buildSshCommand, optionPairs, sshOptionsOf]

/-- Claim C7: for every built SSH invocation, the IdentitiesOnly option is
always present (as the value of the first -o flag, at positions 8 and 9 of
the argument list), and its value is no if and only if agent mode is
enabled, otherwise yes. -/
theorem identities_only_option (debug : Bool) (plugin_install_path : String)
    (s : SshSession) :
    (buildSshCommand debug plugin_install_path s)[8]? = some "-o"
      ∧ ((buildSshCommand debug plugin_install_path s)[9]? = some "IdentitiesOnly=no"
          ↔ s.agent_mode = true)
      ∧ ((buildSshCommand debug plugin_install_path s)[9]? = some "IdentitiesOnly=yes"
          ↔ s.agent_mode = false) := by
  have h1 : ("IdentitiesOnly=" ++ "no" : String) = "IdentitiesOnly=no" := by decide
  have h2 : ("IdentitiesOnly=" ++ "yes" : String) = "IdentitiesOnly=yes" := by decide
  have h3 : ("IdentitiesOnly=no" : String) ≠ "IdentitiesOnly=yes" := by decide
  cases h : s.agent_mode <;>
    simp [buildSshCommand, optionPairs, sshOptionsOf, h, h1, h2, h3, Ne.symm h3]

/-- Claim C8: for every SshSession constructed with instance id I and port
P, the session descriptor passed into the proxy command is exactly Target
= I, DocumentName = AWS-StartSSHSession, Parameters.portNumber = [str P],
and constructing the session performs no remote API call. -/
theorem session_parameters_shape (instance_id key_path ssm_endpoint_url region_name : String)
    (profile_name : Option String) (port : Nat) (user : String)
    (command : Option (List String)) (agent_mode : Bool) (response_json : String) :
    (mkSshSession instance_id key_path ssm_endpoint_url region_name profile_name port
        user command agent_mode response_json).2 = []
      ∧ (mkSshSession instance_id key_path ssm_endpoint_url region_name profile_name port
          user command agent_mode response_json).1.session_parameters
        = ⟨instance_id, "AWS-StartSSHSession", [toString port]⟩ :=
  ⟨rfl, rfl⟩

/-- Claim C10: for every SshSession constructed with profile_name = None,
the stored profile is normalized to the empty string, so the built proxy
command embeds a shell-quoted empty-string token (two single quotes) as
its profile element rather than the text None. -/
theorem none_profile_normalized_empty (instance_id key_path ssm_endpoint_url region_name
      plugin_install_path : String) (port : Nat) (user : String)
    (command : Option (List String)) (agent_mode : Bool) (response_json : String) :
    (mkSshSession instance_id key_path ssm_endpoint_url region_name none port user command
        agent_mode response_json).1.profile_name = ""
      ∧ (proxyCommandArgs plugin_install_path
          (mkSshSession instance_id key_path ssm_endpoint_url region_name none port user
            command agent_mode response_json).1)[4]? = some ""
      ∧ (proxyCommandArgs plugin_install_path
          (mkSshSession instance_id key_path ssm_endpoint_url region_name none port user
            command agent_mode response_json).1)[4]? ≠ some "None"
      ∧ shlexQuote "" = String.mk [squoteChar, squoteChar] := by
  refine ⟨rfl, rfl, ?_, by decide⟩
  intro h
  have h4 : (proxyCommandArgs plugin_install_path
      (mkSshSession instance_id key_path ssm_endpoint_url region_name none port user
        command agent_mode response_json).1)[4]? = some "" := rfl
  rw [h4] at h
  exact absurd h (by decide)

/-- Claim C9: for every call to ssh in which instance resolution yields no
instance identifier, the call raises a ValueError naming the instance and
does so with an empty effect trace: no key material is generated, no
trust-broker call is made and no SSH process is spawned, so nothing needs
cleanup. -/
theorem ssh_unresolved_instance_raises (env : Env) (config instance_name user : String)
    (port : Nat) (key_type : String) (key_size : Nat) (profile_name region_name : String)
    (command : Option (List String)) (agent_mode : Bool)
    (hq : env.query_instance
        (env.fetch_details config instance_name profile_name region_name).1 = none) :
    ssh env config instance_name user port key_type key_size profile_name region_name
        command agent_mode
      = ([], Except.error (GateError.valueError ("No instance could be found for name: "
          ++ (env.fetch_details config instance_name profile_name region_name).1))) := by
  simp only [ssh, hq]

/-- Witness for ssh_unresolved_instance_raises at a concrete input. -/
theorem ssh_unresolved_instance_raises_witness :
    ssh testEnvQueryNone "cfg" "db-server" "ec2-user" 22 "rsa" 2048 "default" "eu-west-1"
        none false
      = ([], Except.error (GateError.valueError ("No instance could be found for name: "
          ++ (testEnvQueryNone.fetch_details "cfg" "db-server" "default" "eu-west-1").1))) :=
  ssh_unresolved_instance_raises testEnvQueryNone "cfg" "db-server" "ec2-user" 22 "rsa" 2048
    "default" "eu-west-1" none false rfl

/-- Counterexample to claim C1: a run in which instance resolution, key
creation and trust installation succeed and the spawned SSH process exits
with status 255, yet the ssh call evaluates to Except.ok none - the exit
status is not returned, because the source calls ssh_session.open()
without a return statement. -/
theorem ssh_exit_255_not_surfaced :
    (ssh testEnvExit255 "cfg" "web" "ec2-user" 22 "rsa" 2048 "default" "eu-west-1" none
        false).2 = Except.ok none
      ∧ (Except.ok none : Except GateError (Option Nat)) ≠ Except.ok (some 255)
      ∧ testEnvExit255.execute_result = Except.ok 255 := by
  refine ⟨rfl, ?_, rfl⟩
  simp

/-- Amended claim C1: for every invocation of ssh in which instance
resolution, key creation, trust installation and the session start
succeed and the spawned local SSH process terminates with exit status N,
the call raises no error and returns None (Except.ok none); the exit
status N is the return value of SshSession.open, but the ssh function
discards it. -/
theorem ssh_result_discards_exit_status (env : Env) (config instance_name user : String)
    (port : Nat) (key_type : String) (key_size : Nat) (profile_name region_name : String)
    (command : Option (List String)) (agent_mode : Bool) (n : Nat) (iid : String)
    (hq : env.query_instance
        (env.fetch_details config instance_name profile_name region_name).1 = some iid)
    (hk : env.key_create_ok = true) (hu : env.upload_ok = true)
    (hs : env.start_session_ok = true) (hx : env.execute_result = Except.ok n) :
    (ssh env config instance_name user port key_type key_size profile_name region_name
        command agent_mode).2 = Except.ok none
      ∧ ∀ s : SshSession, (SshSession.sshOpen env s).2 = Except.ok n := by
  constructor
  · simp only [ssh, hq]
    simp [hk, hu, hs, SshSession.sshOpen, hx]
  · intro s
    simp [SshSession.sshOpen, hx]

/-- Witness for ssh_result_discards_exit_status at a concrete input with
exit status 255. -/
theorem ssh_result_discards_exit_status_witness :
    (ssh testEnvExit255 "cfg" "web" "ec2-user" 22 "rsa" 2048 "default" "eu-west-1" none
        false).2 = Except.ok none
      ∧ ∀ s : SshSession, (SshSession.sshOpen testEnvExit255 s).2 = Except.ok 255 :=
  ssh_result_discards_exit_status testEnvExit255 "cfg" "web" "ec2-user" 22 "rsa" 2048
    "default" "eu-west-1" none false 255 "i-0123456789abcdef0" rfl rfl rfl rfl rfl

/-- Claim C2: whenever ssh propagates an error, the releases recorded in
its trace are exactly the matching releases of the recorded acquisitions,
in reverse acquisition order, and no resource is acquired twice - so
every resource acquired before the failing step is released exactly once,
in reverse order, before the error reaches the caller. -/
theorem ssh_error_releases_reverse_order (env : Env) (config instance_name user : String)
    (port : Nat) (key_type : String) (key_size : Nat) (profile_name region_name : String)
    (command : Option (List String)) (agent_mode : Bool) (e : GateError)
    (herr : (ssh env config instance_name user port key_type key_size profile_name
        region_name command agent_mode).2 = Except.error e) :
    ((ssh env config instance_name user port key_type key_size profile_name region_name
          command agent_mode).1.filter isReleaseEvent)
        = (((ssh env config instance_name user port key_type key_size profile_name
            region_name command agent_mode).1.filter isAcquireEvent).reverse.map releaseFor)
      ∧ ((ssh env config instance_name user port key_type key_size profile_name region_name
          command agent_mode).1.filter isAcquireEvent).Nodup := by
  rcases hq : env.query_instance
      (env.fetch_details config instance_name profile_name region_name).1 with _ | iid
  · simp only [ssh, hq]
    simp [isReleaseEvent, isAcquireEvent]
  · cases hk : env.key_create_ok
    · simp only [ssh, hq]
      simp [hk, isReleaseEvent, isAcquireEvent]
    · cases hu : env.upload_ok
      · simp only [ssh, hq]
        simp [hk, hu, isReleaseEvent, isAcquireEvent, releaseFor]
      · cases hs : env.start_session_ok
        · simp only [ssh, hq]
          simp [hk, hu, hs, isReleaseEvent, isAcquireEvent, releaseFor]
        · rcases hx : env.execute_result with e2 | n
          · simp only [ssh, hq]
            simp [hk, hu, hs, SshSession.sshOpen, hx, mkSshSession,
              isReleaseEvent, isAcquireEvent, releaseFor]
          · exfalso
            simp only [ssh, hq] at herr
            simp [hk, hu, hs, SshSession.sshOpen, hx, mkSshSession] at herr

/-- Counterexample to claim C4: the dot-separated key path is not
injective over all inputs - two calls that differ in instance id and
region can still derive the same path when the components contain dots. -/
theorem key_path_collision_dot :
    keyPathOf "/home/operator/.aws-gate" "i-a.b" "us" "p"
        = keyPathOf "/home/operator/.aws-gate" "i-a" "b.us" "p"
      ∧ ("i-a.b" : String) ≠ "i-a" ∧ ("us" : String) ≠ "b.us" := by
  refine ⟨by decide, by decide, by decide⟩

/-- Splitting at the first dot is unambiguous when the left parts are
dot-free. -/
lemma append_dot_inj : ∀ (a c b d : List Char), '.' ∉ a → '.' ∉ c →
    a ++ '.' :: b = c ++ '.' :: d → a = c ∧ b = d := by
  intro a
  induction a with
  | nil =>
    intro c b d _ hc h
    cases c with
    | nil =>
      simp only [List.nil_append] at h
      exact ⟨rfl, (List.cons.inj h).2⟩
    | cons y u =>
      exfalso
      simp only [List.nil_append, List.cons_append] at h
      have hy : '.' = y := (List.cons.inj h).1
      exact hc (hy ▸ List.mem_cons_self y u)
  | cons x t ih =>
    intro c b d ha hc h
    cases c with
    | nil =>
      exfalso
      simp only [List.nil_append, List.cons_append] at h
      have hx : x = '.' := (List.cons.inj h).1
      exact ha (hx ▸ List.mem_cons_self x t)
    | cons y u =>
      simp only [List.cons_append] at h
      obtain ⟨hxy, htail⟩ := List.cons.inj h
      have ha2 : '.' ∉ t := fun hm => ha (List.mem_cons_of_mem x hm)
      have hc2 : '.' ∉ u := fun hm => hc (List.mem_cons_of_mem y hm)
      obtain ⟨h1, h2⟩ := ih u b d ha2 hc2 htail
      exact ⟨by rw [hxy, h1], h2⟩

/-- The key path determines its (instance id, region, profile) components
whenever the instance ids and regions contain no dot. -/
lemma keyPathOf_inj (g i r p i2 r2 p2 : String)
    (hi : '.' ∉ i.data) (hi2 : '.' ∉ i2.data) (hr : '.' ∉ r.data) (hr2 : '.' ∉ r2.data)
    (h : keyPathOf g i r p = keyPathOf g i2 r2 p2) : i = i2 ∧ r = r2 ∧ p = p2 := by
  unfold keyPathOf at h
  have hd := congrArg String.data h
  have hslash : ("/" : String).data = ['/'] := by decide
  have hdot : ("." : String).data = ['.'] := by decide
  simp only [string_data_append, hslash, hdot, List.append_assoc,
    List.singleton_append] at hd
  have hd2 := List.append_cancel_left hd
  obtain ⟨-, hd3⟩ := List.cons.inj hd2
  obtain ⟨hi_eq, hd4⟩ := append_dot_inj i.data i2.data _ _ hi hi2 hd3
  obtain ⟨hr_eq, hp_eq⟩ := append_dot_inj r.data r2.data _ _ hr hr2 hd4
  exact ⟨String.ext hi_eq, String.ext hr_eq, String.ext hp_eq⟩

/-- Amended claim C4: for every call to ssh whose instance resolution
succeeds and whose key creation starts, the ephemeral key path is
gate-dir, slash, instance id, dot, region_name, dot, profile_name, built
from the queried instance id and the region_name and profile_name
arguments of ssh (not from the config-resolved region and profile that
the session itself uses); two calls with identical inputs derive the same
path, and two calls differing in instance id, region or profile derive
different paths provided the instance ids and regions contain no dot. -/
theorem key_path_formula_and_injectivity (env : Env) (config instance_name user : String)
    (port : Nat) (key_type : String) (key_size : Nat) (profile_name region_name : String)
    (command : Option (List String)) (agent_mode : Bool) (iid : String)
    (hq : env.query_instance
        (env.fetch_details config instance_name profile_name region_name).1 = some iid)
    (hk : env.key_create_ok = true) :
    (ssh env config instance_name user port key_type key_size profile_name region_name
        command agent_mode).1.head?
        = some (Event.keyCreate
            (keyPathOf env.default_gate_dir iid region_name profile_name))
      ∧ keyPathOf env.default_gate_dir iid region_name profile_name
        = env.default_gate_dir ++ "/" ++ iid ++ "." ++ region_name ++ "." ++ profile_name
      ∧ (∀ iid2 rn2 pn2 : String, '.' ∉ iid.data → '.' ∉ iid2.data →
          '.' ∉ region_name.data → '.' ∉ rn2.data →
          keyPathOf env.default_gate_dir iid region_name profile_name
            = keyPathOf env.default_gate_dir iid2 rn2 pn2 →
          iid = iid2 ∧ region_name = rn2 ∧ profile_name = pn2) := by
  refine ⟨?_, rfl, ?_⟩
  · simp only [ssh, hq]
    cases hu : env.upload_ok <;> cases hs : env.start_session_ok <;>
      rcases hx : env.execute_result with e2 | n <;>
        simp [hk, hu, hs, hx, SshSession.sshOpen, mkSshSession]
  · intro iid2 rn2 pn2 h1 h2 h3 h4 heq
    exact keyPathOf_inj env.default_gate_dir iid region_name profile_name iid2 rn2 pn2
      h1 h2 h3 h4 heq

/-- Witness for key_path_formula_and_injectivity at a concrete input. -/
theorem key_path_formula_and_injectivity_witness :
    ("i-0123456789abcdef0" : String) = "i-0123456789abcdef0"
      ∧ ("eu-west-1" : String) = "eu-west-1" ∧ ("default" : String) = "default" :=
  (key_path_formula_and_injectivity testEnvBase "cfg" "web" "ec2-user" 22 "rsa" 2048
      "default" "eu-west-1" none false "i-0123456789abcdef0" rfl rfl).2.2
    "i-0123456789abcdef0" "eu-west-1" "default" (by decide) (by decide) (by decide)
    (by decide) rfl

/-- Witness for ssh_error_releases_reverse_order at a concrete input where
the trust-broker upload fails. -/
theorem ssh_error_releases_reverse_order_witness :
    ((ssh testEnvUploadFail "cfg" "web" "ec2-user" 22 "rsa" 2048 "default" "eu-west-1" none
          false).1.filter isReleaseEvent)
        = (((ssh testEnvUploadFail "cfg" "web" "ec2-user" 22 "rsa" 2048 "default"
            "eu-west-1" none false).1.filter isAcquireEvent).reverse.map releaseFor)
      ∧ ((ssh testEnvUploadFail "cfg" "web" "ec2-user" 22 "rsa" 2048 "default" "eu-west-1"
          none false).1.filter isAcquireEvent).Nodup :=
  ssh_error_releases_reverse_order testEnvUploadFail "cfg" "web" "ec2-user" 22 "rsa" 2048
    "default" "eu-west-1" none false GateError.trustInstallError rfl

end AwsGate
